import Mathlib

/-!
Verification of the invariant-enforcement and lease-lifecycle core of a
property-management backend (models `Contact`, `Unit`, `Lease`, the
`Lease.save` / `Unit.save` write paths, the lease create/update serializer
validation, the lease end-date calculation and the dashboard aggregates).

The Python source is shallowly embedded: the record store is a triple of
lists, each foreign key is the primary key (`Nat`) of the referenced row,
and every write operation is a function `Store → ... → Store × Option
WriteError` returning the store as mutated up to the point where an
exception (if any) was raised, mirroring the sequential effectful code.
-/

namespace PMS

inductive ContactType
  | LANDLORD
  | TENANT
deriving DecidableEq, Repr

inductive UnitType
  | APARTMENT
  | HOUSE
  | CONDO
  | COMMERCIAL
  | OTHER
deriving DecidableEq, Repr

inductive UnitStatus
  | VACANT
  | OCCUPIED
  | MAINTENANCE
deriving DecidableEq, Repr

inductive PaymentFrequency
  | MONTHLY
  | QUARTERLY
  | SEMI_ANNUAL
  | ANNUAL
deriving DecidableEq, Repr

/-- `core.models.Contact`: name, contact type and optional contact info. -/
structure Contact where
  id : Nat
  name : String
  contact_type : ContactType
  email : String
  phone : String
  address : String
deriving DecidableEq, Repr

/-- Calendar date (for `Lease.start_date` and the computed end date). -/
structure Date where
  year : Nat
  month : Nat
  day : Nat
deriving DecidableEq, Repr

/-- `core.models.Unit`: a rentable unit owned by a Contact (by id). -/
structure Unit where
  id : Nat
  unit_number : String
  type : UnitType
  location : String
  value : Int
  status : UnitStatus
  owner : Nat
deriving DecidableEq, Repr

/-- `core.models.Lease`: references unit, tenant and landlord by id. -/
structure Lease where
  id : Nat
  unit : Nat
  tenant : Nat
  landlord : Nat
  start_date : Date
  duration : Nat
  rent_amount : Int
  payment_frequency : PaymentFrequency
deriving DecidableEq, Repr

/-- The entity store: all persisted Contact, Unit and Lease rows. -/
structure Store where
  contacts : List Contact
  units : List Unit
  leases : List Lease
deriving DecidableEq, Repr

/-- Look up a row by primary key. -/
def findById {α : Type} (idOf : α → Nat) (i : Nat) (l : List α) : Option α :=
  l.find? (fun y => idOf y = i)

def findContact (s : Store) (i : Nat) : Option Contact :=
  findById (fun c => c.id) i s.contacts

def findUnit (s : Store) (i : Nat) : Option Unit :=
  findById (fun u => u.id) i s.units

def findLease (s : Store) (i : Nat) : Option Lease :=
  findById (fun l => l.id) i s.leases

/-- Persist a row: replace the row with the same primary key, or append. -/
def upsertBy {α : Type} (idOf : α → Nat) (x : α) : List α → List α
  | [] => [x]
  | y :: ys => if idOf y = idOf x then x :: ys else y :: upsertBy idOf x ys

def upsertUnit (s : Store) (u : Unit) : Store :=
  { s with units := upsertBy (fun w => w.id) u s.units }

def upsertLease (s : Store) (l : Lease) : Store :=
  { s with leases := upsertBy (fun w => w.id) l s.leases }

/-- The errors the write paths can raise.  `roleViolationTenant`,
`roleViolationLandlord` and `roleViolationOwner` are the three
`RoleViolation` variants (the distinct `ValueError` messages of the
source); `ownershipMismatch`, `alreadyOccupied` and `notFound` match
the remaining rejections. -/
inductive WriteError
  | roleViolationTenant
  | roleViolationLandlord
  | roleViolationOwner
  | ownershipMismatch
  | alreadyOccupied
  | notFound
deriving DecidableEq, Repr

/-- `Unit.save` (models.py lines 81-85): raises `RoleViolation` unless the
owner contact has `contact_type = LANDLORD`, otherwise persists the unit. -/
def unitSave (s : Store) (u : Unit) : Store × Option WriteError :=
  match findContact s u.owner with
  | none => (s, some WriteError.notFound)
  | some owner =>
    if owner.contact_type ≠ ContactType.LANDLORD then
      (s, some WriteError.roleViolationOwner)
    else
      (upsertUnit s u, none)

/-- `Lease.save` (models.py lines 136-158), in source order: tenant role
check, landlord role check, ownership check, then (only after all checks
pass) the unit-status mutation to OCCUPIED via `self.unit.save()`, then the
lease row itself is persisted.  The returned store reflects every mutation
performed before any raised error. -/
def leaseSave (s : Store) (l : Lease) : Store × Option WriteError :=
  match findContact s l.tenant with
  | none => (s, some WriteError.notFound)
  | some tenant =>
    if tenant.contact_type ≠ ContactType.TENANT then
      (s, some WriteError.roleViolationTenant)
    else
      match findContact s l.landlord with
      | none => (s, some WriteError.notFound)
      | some landlord =>
        if landlord.contact_type ≠ ContactType.LANDLORD then
          (s, some WriteError.roleViolationLandlord)
        else
          match findUnit s l.unit with
          | none => (s, some WriteError.notFound)
          | some unit =>
            if l.landlord ≠ unit.owner then
              (s, some WriteError.ownershipMismatch)
            else if unit.status ≠ UnitStatus.OCCUPIED then
              match unitSave s { unit with status := UnitStatus.OCCUPIED } with
              | (s1, some e) => (s1, some e)
              | (s1, none) => (upsertLease s1 l, none)
            else
              (upsertLease s l, none)

/-- `LeaseCreateUpdateSerializer.validate` (serializers.py lines 72-100).
`inst = none` models a create (`self.instance is None`), `inst = some i`
an update of lease `i`.  All four fields are present in `data` (full
create/update payload); the primary keys are resolved against the store
first, as the framework's related fields do.  The occupied-unit pre-check
runs only on create, before the role and ownership checks. -/
def leaseValidate (inst : Option Nat) (s : Store) (l : Lease) : Option WriteError :=
  match findContact s l.tenant, findContact s l.landlord, findUnit s l.unit with
  | some tenant, some landlord, some unit =>
    if inst = none ∧ unit.status = UnitStatus.OCCUPIED then
      some WriteError.alreadyOccupied
    else if tenant.contact_type ≠ ContactType.TENANT then
      some WriteError.roleViolationTenant
    else if landlord.contact_type ≠ ContactType.LANDLORD then
      some WriteError.roleViolationLandlord
    else if l.landlord ≠ unit.owner then
      some WriteError.ownershipMismatch
    else
      none
  | _, _, _ => some WriteError.notFound

/-- The API create path: serializer validation, then `Lease.save`. -/
def apiCreateLease (s : Store) (l : Lease) : Store × Option WriteError :=
  match leaseValidate none s l with
  | some e => (s, some e)
  | none => leaseSave s l

/-- The API update path for an existing lease `ex`: serializer validation
with `self.instance` set, then `Lease.save`. -/
def apiUpdateLease (s : Store) (ex : Nat) (l : Lease) : Store × Option WriteError :=
  match leaseValidate (some ex) s l with
  | some e => (s, some e)
  | none => leaseSave s l

/-! ### Lease end-date calculation (serializers.py lines 123-129) -/

def isLeapYear (y : Nat) : Bool :=
  y % 4 == 0 && (y % 100 != 0 || y % 400 == 0)

def daysInMonth (y m : Nat) : Nat :=
  if m = 2 then (if isLeapYear y then 29 else 28)
  else if m = 4 ∨ m = 6 ∨ m = 9 ∨ m = 11 then 30
  else 31

/-- `relativedelta(months = n)` addition as used by `get_end_date`:
the month is advanced by `n`, the overflow is carried into the year, and
the day is clamped to the last valid day of the resulting month. -/
def addMonths (d : Date) (n : Nat) : Date :=
  let t := d.month - 1 + n
  let y := d.year + t / 12
  let m := t % 12 + 1
  { year := y, month := m, day := min d.day (daysInMonth y m) }

/-- `LeaseDetailSerializer.get_end_date`: `start_date +
relativedelta(months=duration)` when a start date is present, else `None`. -/
def getEndDate (start : Option Date) (duration : Nat) : Option Date :=
  match start with
  | some sd => some (addMonths sd duration)
  | none => none

/-- Modelled from the spec's wording for comparison: "startDate +
durationMonths calendar months", computed on the absolute month index, with
the day-of-month clamped to the target month's last valid day. -/
def specEndDate (d : Date) (n : Nat) : Date :=
  let i := d.year * 12 + (d.month - 1) + n
  { year := i / 12, month := i % 12 + 1
    day := min d.day (daysInMonth (i / 12) (i % 12 + 1)) }

/-! ### Dashboard aggregates (views.py lines 131-196) -/

/-- One step of the `values('status').annotate(count=Count('id'))`
grouping: bump the count of `st` in the association list. -/
def bump (st : UnitStatus) : List (UnitStatus × Nat) → List (UnitStatus × Nat)
  | [] => [(st, 1)]
  | p :: ps => if p.1 = st then (p.1, p.2 + 1) :: ps else p :: bump st ps

/-- The `unit_counts` grouping of views.py line 140. -/
def statusGroups (units : List Unit) : List (UnitStatus × Nat) :=
  units.foldr (fun u acc => bump u.status acc) []

/-- `unit_status.get(st, 0)` of views.py lines 146-148. -/
def statusGet (g : List (UnitStatus × Nat)) (st : UnitStatus) : Nat :=
  match g.find? (fun p => p.1 = st) with
  | some p => p.2
  | none => 0

/-- Round-to-nearest, ties to even, of the rational `num / den` (`den ≠ 0`):
the rounding Python's fixed-point formatting applies.  The float/rational
gap is immaterial at every value this development evaluates. -/
def roundHalfEven (num den : Nat) : Nat :=
  let q := num / den
  let r := num % den
  if 2 * r > den then q + 1
  else if 2 * r < den then q
  else if q % 2 = 0 then q else q + 1

def pad2 (n : Nat) : String :=
  if n < 10 then "0" ++ toString n else toString n

/-- Render `n` hundredths in the `:.2f` fixed-point format. -/
def fmt2 (n : Nat) : String :=
  toString (n / 100) ++ "." ++ pad2 (n % 100)

/-- The `units_summary` object of views.py lines 181-187: counts per status
via the grouping dictionary, and `occupancy_rate` as
`f"{(occupied / total * 100) if total_units else 0:.2f}%"`. -/
structure UnitsSummary where
  total : Nat
  vacant : Nat
  occupied : Nat
  maintenance : Nat
  occupancy_rate : String
deriving DecidableEq, Repr

def unitsSummary (s : Store) : UnitsSummary :=
  let g := statusGroups s.units
  let total := s.units.length
  let occ := statusGet g UnitStatus.OCCUPIED
  { total := total
    vacant := statusGet g UnitStatus.VACANT
    occupied := occ
    maintenance := statusGet g UnitStatus.MAINTENANCE
    occupancy_rate :=
      fmt2 (if total = 0 then 0 else roundHalfEven (occ * 10000) total) ++ "%" }

/-- A Django-style field error: the query named a field the model does not
have. -/
inductive QueryError
  | fieldError : String → QueryError
deriving DecidableEq, Repr

/-- One row of the `landlords_summary` (views.py lines 150-155). -/
structure LandlordRow where
  id : Nat
  name : String
  units_count : Nat
deriving DecidableEq, Repr

/-- `Contact.objects.filter(kw = v)` for a `ContactType` value `v`: the only
Contact field holding a `ContactType` is `contact_type` (models.py line 14,
renamed from `type`); any other keyword cannot be resolved and raises
`FieldError` when the filter is built. -/
def contactsFilterByType (kw : String) (v : ContactType) (s : Store) :
    Except QueryError (List Contact) :=
  if kw = "contact_type" then
    Except.ok (s.contacts.filter (fun c => c.contact_type = v))
  else
    Except.error (QueryError.fieldError kw)

def unitsCountOf (s : Store) (cid : Nat) : Nat :=
  s.units.countP (fun u => u.owner = cid)

/-- The landlord summary of views.py lines 150-155, with the keyword the
source actually passes: `filter(type=Contact.ContactType.LANDLORD)`. -/
def landlordsSummary (s : Store) : Except QueryError (List LandlordRow) :=
  (contactsFilterByType "type" ContactType.LANDLORD s).map
    (fun cs => cs.map (fun c =>
      { id := c.id, name := c.name, units_count := unitsCountOf s c.id }))

/-- `DashboardView.list`: the unit-status summary is computed first, then
the landlord filter is built (views.py line 151), which raises before any
later aggregate (rent sums, latest lease — lines 157-196) can run; those
later parts are therefore unreachable and not modelled. -/
def dashboardSummary (s : Store) :
    Except QueryError (UnitsSummary × List LandlordRow) :=
  match landlordsSummary s with
  | Except.error e => Except.error e
  | Except.ok ls => Except.ok (unitsSummary s, ls)

/-! ### Concrete sample data used by witnesses and counterexamples -/

def landlordA : Contact :=
  { id := 1, name := "Alice", contact_type := ContactType.LANDLORD
    email := "", phone := "", address := "" }

def tenantB : Contact :=
  { id := 2, name := "Bob", contact_type := ContactType.TENANT
    email := "", phone := "", address := "" }

def landlordC : Contact :=
  { id := 3, name := "Cara", contact_type := ContactType.LANDLORD
    email := "", phone := "", address := "" }

def unit101 : Unit :=
  { id := 1, unit_number := "U-101", type := UnitType.APARTMENT
    location := "Main St", value := 100000, status := UnitStatus.VACANT
    owner := 1 }

def baseStore : Store :=
  { contacts := [landlordA, tenantB, landlordC], units := [unit101], leases := [] }

def lease1 : Lease :=
  { id := 1, unit := 1, tenant := 2, landlord := 1
    start_date := { year := 2025, month := 1, day := 1 }
    duration := 12, rent_amount := 1500
    payment_frequency := PaymentFrequency.MONTHLY }

/-- `baseStore` after the first lease: the unit is OCCUPIED, `lease1` is on
file. -/
def occStore : Store :=
  { contacts := [landlordA, tenantB, landlordC]
    units := [{ unit101 with status := UnitStatus.OCCUPIED }]
    leases := [lease1] }

def lease2 : Lease := { lease1 with id := 2 }

def emptyStore : Store := { contacts := [], units := [], leases := [] }

def threeUnitStore : Store :=
  { contacts := [landlordA]
    units :=
      [{ unit101 with id := 1, unit_number := "U-101" }
      , { unit101 with id := 2, unit_number := "U-102", status := UnitStatus.OCCUPIED }
      , { unit101 with id := 3, unit_number := "U-103", status := UnitStatus.OCCUPIED }]
    leases := [] }

/-! ### Store lemmas -/

theorem findById_id {α : Type} (idOf : α → Nat) (i : Nat) (l : List α) (y : α)
    (h : findById idOf i l = some y) : idOf y = i := by
  have h' : l.find? (fun z => decide (idOf z = i)) = some y := h
  simpa using List.find?_some h'

theorem findById_upsertBy_self {α : Type} (idOf : α → Nat) (x : α) :
    ∀ l : List α, findById idOf (idOf x) (upsertBy idOf x l) = some x
  | [] => by simp [findById, upsertBy]
  | y :: ys => by
    unfold upsertBy
    by_cases h : idOf y = idOf x
    · simp [findById, h]
    · simpa [findById, h] using findById_upsertBy_self idOf x ys

theorem findUnit_upsertLease (s : Store) (l : Lease) (i : Nat) :
    findUnit (upsertLease s l) i = findUnit s i := rfl

theorem findContact_upsertUnit (s : Store) (u : Unit) (i : Nat) :
    findContact (upsertUnit s u) i = findContact s i := rfl

theorem findUnit_upsertUnit_self (s : Store) (u : Unit) :
    findUnit (upsertUnit s u) u.id = some u := by
  have h := findById_upsertBy_self (fun w : Unit => w.id) u s.units
  exact h

/-! ### `Unit.save` lemmas -/

theorem unitSave_ok (s : Store) (u : Unit) (owner : Contact)
    (h : findContact s u.owner = some owner)
    (hl : owner.contact_type = ContactType.LANDLORD) :
    unitSave s u = (upsertUnit s u, none) := by
  unfold unitSave
  simp [h, hl]

theorem unitSave_error_fst (s : Store) (u : Unit) (e : WriteError)
    (h : (unitSave s u).2 = some e) : (unitSave s u).1 = s := by
  unfold unitSave at h ⊢
  cases hm : findContact s u.owner with
  | none => simp [hm]
  | some owner =>
    simp only [hm] at h ⊢
    by_cases hc : owner.contact_type = ContactType.LANDLORD
    · simp [hc] at h
    · simp [hc]

/-! ### `Lease.save` lemmas -/

/-- When every check of `Lease.save` passes, the write persists the lease
and (when needed) flips the unit to OCCUPIED. -/
theorem leaseSave_all_pass (s : Store) (l : Lease) (t ld : Contact) (u : Unit)
    (ht : findContact s l.tenant = some t)
    (htt : t.contact_type = ContactType.TENANT)
    (hl : findContact s l.landlord = some ld)
    (hll : ld.contact_type = ContactType.LANDLORD)
    (hu : findUnit s l.unit = some u)
    (how : l.landlord = u.owner) :
    leaseSave s l =
      if u.status ≠ UnitStatus.OCCUPIED then
        (upsertLease (upsertUnit s { u with status := UnitStatus.OCCUPIED }) l, none)
      else (upsertLease s l, none) := by
  have hoc : findContact s u.owner = some ld := how ▸ hl
  unfold leaseSave
  rw [ht, hl, hu]
  simp only [htt, hll, how]
  by_cases hst : u.status = UnitStatus.OCCUPIED
  · simp [hst]
  · rw [unitSave_ok s { u with status := UnitStatus.OCCUPIED } ld hoc hll]
    simp [hst]

/-- Any error raised by `Lease.save` leaves the store untouched. -/
theorem leaseSave_error_fst (s : Store) (l : Lease) (e : WriteError)
    (h : (leaseSave s l).2 = some e) : (leaseSave s l).1 = s := by
  unfold leaseSave at h ⊢
  cases ht : findContact s l.tenant with
  | none => simp [ht]
  | some t =>
    simp only [ht] at h ⊢
    by_cases htt : t.contact_type = ContactType.TENANT
    case neg => simp [htt]
    case pos =>
      simp only [htt, ne_eq, not_true_eq_false, if_false] at h ⊢
      cases hl : findContact s l.landlord with
      | none => simp [hl]
      | some ld =>
        simp only [hl] at h ⊢
        by_cases hll : ld.contact_type = ContactType.LANDLORD
        case neg => simp [hll]
        case pos =>
          simp only [hll, ne_eq, not_true_eq_false, if_false] at h ⊢
          cases hu : findUnit s l.unit with
          | none => simp [hu]
          | some u =>
            simp only [hu] at h ⊢
            by_cases how : l.landlord = u.owner
            case neg => simp [how]
            case pos =>
              simp only [how, ne_eq, not_true_eq_false, if_false] at h ⊢
              by_cases hst : u.status = UnitStatus.OCCUPIED
              · simp [hst] at h
              · simp only [hst, ne_eq, not_false_eq_true, if_true] at h ⊢
                cases hres : unitSave s { u with status := UnitStatus.OCCUPIED } with
                | mk s1 r =>
                  cases r with
                  | none => simp [hres] at h
                  | some e1 =>
                    simp only [hres]
                    have : (unitSave s { u with status := UnitStatus.OCCUPIED }).1 = s :=
                      unitSave_error_fst _ _ e1 (by rw [hres])
                    rw [hres] at this
                    exact this

/-- A successful `Lease.save` leaves the referenced unit OCCUPIED. -/
theorem leaseSave_ok_unit (s : Store) (l : Lease)
    (h : (leaseSave s l).2 = none) :
    ∃ u, findUnit (leaseSave s l).1 l.unit = some u ∧
      u.status = UnitStatus.OCCUPIED := by
  unfold leaseSave at h ⊢
  cases ht : findContact s l.tenant with
  | none => simp [ht] at h
  | some t =>
    simp only [ht] at h ⊢
    by_cases htt : t.contact_type = ContactType.TENANT
    case neg => simp [htt] at h
    case pos =>
      simp only [htt, ne_eq, not_true_eq_false, if_false] at h ⊢
      cases hl : findContact s l.landlord with
      | none => simp [hl] at h
      | some ld =>
        simp only [hl] at h ⊢
        by_cases hll : ld.contact_type = ContactType.LANDLORD
        case neg => simp [hll] at h
        case pos =>
          simp only [hll, ne_eq, not_true_eq_false, if_false] at h ⊢
          cases hu : findUnit s l.unit with
          | none => simp [hu] at h
          | some u =>
            simp only [hu] at h ⊢
            by_cases how : l.landlord = u.owner
            case neg => simp [how] at h
            case pos =>
              have hid : u.id = l.unit := findById_id (fun w : Unit => w.id) l.unit s.units u hu
              have hoc : findContact s u.owner = some ld := how ▸ hl
              simp only [how, ne_eq, not_true_eq_false, if_false] at h ⊢
              by_cases hst : u.status = UnitStatus.OCCUPIED
              · refine ⟨u, ?_, hst⟩
                simp only [hst, ne_eq, not_true_eq_false, if_false]
                rw [findUnit_upsertLease]
                exact hu
              · refine ⟨{ u with status := UnitStatus.OCCUPIED }, ?_, rfl⟩
                simp only [hst, ne_eq, not_false_eq_true, if_true]
                rw [unitSave_ok s { u with status := UnitStatus.OCCUPIED } ld hoc hll]
                rw [findUnit_upsertLease, ← hid]
                exact findUnit_upsertUnit_self s { u with status := UnitStatus.OCCUPIED }

/-- `Lease.save` itself never raises `AlreadyOccupied`: the occupied-unit
pre-check lives only in the serializer. -/
theorem leaseSave_ne_alreadyOccupied (s : Store) (l : Lease) :
    (leaseSave s l).2 ≠ some WriteError.alreadyOccupied := by
  unfold leaseSave
  cases ht : findContact s l.tenant with
  | none => simp
  | some t =>
    by_cases htt : t.contact_type = ContactType.TENANT
    case neg => simp [htt]
    case pos =>
      simp only [htt, ne_eq, not_true_eq_false, if_false]
      cases hl : findContact s l.landlord with
      | none => simp
      | some ld =>
        by_cases hll : ld.contact_type = ContactType.LANDLORD
        case neg => simp [hll]
        case pos =>
          simp only [hll, ne_eq, not_true_eq_false, if_false]
          cases hu : findUnit s l.unit with
          | none => simp
          | some u =>
            by_cases how : l.landlord = u.owner
            case neg => simp [how]
            case pos =>
              simp only [how, ne_eq, not_true_eq_false, if_false]
              by_cases hst : u.status = UnitStatus.OCCUPIED
              · simp [hst]
              · simp only [hst, ne_eq, not_false_eq_true, if_true]
                cases hres : unitSave s { u with status := UnitStatus.OCCUPIED } with
                | mk s1 r =>
                  cases r with
                  | none => simp
                  | some e1 =>
                    have : e1 ≠ WriteError.alreadyOccupied := by
                      revert hres
                      unfold unitSave
                      cases findContact s ({ u with status := UnitStatus.OCCUPIED } : Unit).owner with
                      | none => intro hres; cases hres; simp
                      | some ow =>
                        by_cases hc : ow.contact_type = ContactType.LANDLORD
                        · simp [hc]
                        · intro hres
                          simp only [hc, ne_eq, not_false_eq_true, if_true] at hres
                          cases hres
                          simp
                    simpa using this

/-- Serializer validation with `self.instance` present (an update) never
raises `AlreadyOccupied`. -/
theorem leaseValidate_update_ne_alreadyOccupied (ex : Nat) (s : Store) (l : Lease) :
    leaseValidate (some ex) s l ≠ some WriteError.alreadyOccupied := by
  unfold leaseValidate
  cases findContact s l.tenant with
  | none => simp
  | some t =>
    cases findContact s l.landlord with
    | none => simp
    | some ld =>
      cases findUnit s l.unit with
      | none => simp
      | some u =>
        by_cases htt : t.contact_type = ContactType.TENANT <;>
          by_cases hll : ld.contact_type = ContactType.LANDLORD <;>
            by_cases how : l.landlord = u.owner <;>
              simp [htt, hll, how]

/-! ### Aggregation lemmas -/

theorem statusGet_cons (p : UnitStatus × Nat) (ps : List (UnitStatus × Nat))
    (st : UnitStatus) :
    statusGet (p :: ps) st = if p.1 = st then p.2 else statusGet ps st := by
  unfold statusGet
  by_cases h : p.1 = st <;> simp [h]

theorem statusGet_bump (stb st : UnitStatus) :
    ∀ g : List (UnitStatus × Nat),
      statusGet (bump stb g) st = statusGet g st + (if stb = st then 1 else 0)
  | [] => by
    by_cases h : stb = st <;> simp [bump, statusGet, h]
  | p :: ps => by
    unfold bump
    by_cases h : p.1 = stb
    · rw [if_pos h, statusGet_cons, statusGet_cons]
      by_cases h2 : p.1 = st
      · rw [if_pos h2, if_pos h2, if_pos (h.symm.trans h2)]
      · rw [if_neg h2, if_neg h2, if_neg (fun hq => h2 (h.trans hq))]
        omega
    · rw [if_neg h, statusGet_cons, statusGet_cons]
      by_cases h2 : p.1 = st
      · rw [if_pos h2, if_pos h2, if_neg (fun hq : stb = st => h (h2.trans hq.symm))]
        omega
      · rw [if_neg h2, if_neg h2]
        exact statusGet_bump stb st ps

theorem statusGet_statusGroups (us : List Unit) (st : UnitStatus) :
    statusGet (statusGroups us) st = us.countP (fun u => u.status = st) := by
  induction us with
  | nil => simp [statusGroups, statusGet]
  | cons u us ih =>
    simp only [statusGroups, List.foldr_cons] at *
    rw [statusGet_bump, ih, List.countP_cons]
    by_cases h : u.status = st <;> simp [h, Nat.add_comm]

/-! ### Claim theorems -/

/-- C1: a Lease write that fails any of the three invariant checks (tenant
role, landlord role, landlord-equals-unit-owner) leaves the store — in
particular the referenced Unit's status and the set of Lease rows — exactly
as it was before the attempt; the Unit mutation to OCCUPIED happens only
after all checks pass. -/
theorem lease_failed_check_is_atomic (s : Store) (l : Lease) (e : WriteError)
    (h : (leaseSave s l).2 = some e)
    (_he : e = WriteError.roleViolationTenant ∨
      e = WriteError.roleViolationLandlord ∨ e = WriteError.ownershipMismatch) :
    (leaseSave s l).1 = s :=
  leaseSave_error_fst s l e h

theorem lease_failed_check_is_atomic_witness :
    (leaseSave baseStore { lease1 with tenant := 1 }).1 = baseStore :=
  lease_failed_check_is_atomic baseStore { lease1 with tenant := 1 }
    WriteError.roleViolationTenant (by decide) (Or.inl rfl)

/-- C2: every successful Lease write leaves the referenced Unit OCCUPIED;
in particular creating `lease1` (VACANT unit, TENANT tenant, landlord =
unit owner) through the API succeeds and flips the unit to OCCUPIED. -/
theorem lease_write_sets_unit_occupied :
    (∀ s l, (leaseSave s l).2 = none →
      ∃ u, findUnit (leaseSave s l).1 l.unit = some u ∧
        u.status = UnitStatus.OCCUPIED) ∧
    ((apiCreateLease baseStore lease1).2 = none ∧
      findUnit (apiCreateLease baseStore lease1).1 1 =
        some { unit101 with status := UnitStatus.OCCUPIED }) :=
  ⟨leaseSave_ok_unit, by decide, by decide⟩

theorem lease_write_sets_unit_occupied_witness :
    ∃ u, findUnit (leaseSave baseStore lease1).1 lease1.unit = some u ∧
      u.status = UnitStatus.OCCUPIED :=
  lease_write_sets_unit_occupied.1 baseStore lease1 (by decide)

/-- C3, counterexample to the claim as stated: the core write path
(`Lease.save`) performs no occupancy pre-check — called directly against an
already-OCCUPIED unit it succeeds and persists a second Lease. -/
theorem core_write_accepts_occupied_unit :
    (leaseSave occStore lease2).2 = none ∧
      (leaseSave occStore lease2).1.leases.length = 2 := by decide

/-- C3, amended: creating a Lease through the API serializer against a Unit
whose status is OCCUPIED fails with `AlreadyOccupied` and leaves the store
unchanged (no second Lease); but the pre-check is performed only by the
API-layer serializer, not by the core write path itself. -/
theorem api_create_rejects_occupied_unit (s : Store) (l : Lease)
    (t ld : Contact) (u : Unit)
    (ht : findContact s l.tenant = some t)
    (hl : findContact s l.landlord = some ld)
    (hu : findUnit s l.unit = some u)
    (hst : u.status = UnitStatus.OCCUPIED) :
    apiCreateLease s l = (s, some WriteError.alreadyOccupied) := by
  unfold apiCreateLease leaseValidate
  rw [ht, hl, hu]
  simp [hst]

theorem api_create_rejects_occupied_unit_witness :
    apiCreateLease occStore lease2 = (occStore, some WriteError.alreadyOccupied) :=
  api_create_rejects_occupied_unit occStore lease2 tenantB landlordA
    { unit101 with status := UnitStatus.OCCUPIED }
    (by decide) (by decide) (by decide) rfl

/-- C4: a Lease write whose tenant is not a TENANT contact or whose
landlord is not a LANDLORD contact fails with a `RoleViolation` and leaves
the store (hence the referenced Unit's status) unchanged. -/
theorem lease_role_violation (s : Store) (l : Lease) (t ld : Contact)
    (ht : findContact s l.tenant = some t)
    (hl : findContact s l.landlord = some ld)
    (hbad : t.contact_type ≠ ContactType.TENANT ∨
      ld.contact_type ≠ ContactType.LANDLORD) :
    (leaseSave s l).1 = s ∧
      ((leaseSave s l).2 = some WriteError.roleViolationTenant ∨
        (leaseSave s l).2 = some WriteError.roleViolationLandlord) := by
  unfold leaseSave
  rw [ht]
  by_cases htt : t.contact_type = ContactType.TENANT
  · have hlb : ld.contact_type ≠ ContactType.LANDLORD := by
      rcases hbad with h | h
      · exact absurd htt h
      · exact h
    simp only [htt, ne_eq, not_true_eq_false, if_false]
    rw [hl]
    simp [hlb]
  · simp [htt]

theorem lease_role_violation_witness :
    (leaseSave baseStore { lease1 with tenant := 1 }).1 = baseStore ∧
      ((leaseSave baseStore { lease1 with tenant := 1 }).2 =
          some WriteError.roleViolationTenant ∨
        (leaseSave baseStore { lease1 with tenant := 1 }).2 =
          some WriteError.roleViolationLandlord) :=
  lease_role_violation baseStore { lease1 with tenant := 1 } landlordA landlordA
    (by decide) (by decide) (Or.inl (by decide))

/-- C5: a Lease write whose landlord is not the owner of the referenced
unit (the role checks passing) fails with `OwnershipMismatch` and persists
nothing. -/
theorem lease_ownership_mismatch (s : Store) (l : Lease) (t ld : Contact)
    (u : Unit)
    (ht : findContact s l.tenant = some t)
    (htt : t.contact_type = ContactType.TENANT)
    (hl : findContact s l.landlord = some ld)
    (hll : ld.contact_type = ContactType.LANDLORD)
    (hu : findUnit s l.unit = some u)
    (how : l.landlord ≠ u.owner) :
    leaseSave s l = (s, some WriteError.ownershipMismatch) := by
  unfold leaseSave
  rw [ht]
  simp only [htt, ne_eq, not_true_eq_false, if_false]
  rw [hl]
  simp only [hll, ne_eq, not_true_eq_false, if_false]
  rw [hu]
  simp [how]

theorem lease_ownership_mismatch_witness :
    leaseSave baseStore { lease1 with landlord := 3 } =
      (baseStore, some WriteError.ownershipMismatch) :=
  lease_ownership_mismatch baseStore { lease1 with landlord := 3 }
    tenantB landlordC unit101 (by decide) rfl (by decide) rfl (by decide)
    (by decide)

/-- C6: after any successful Unit write the owner is a LANDLORD contact;
persisting a Unit whose owner contact is not a LANDLORD fails with
`RoleViolation` and leaves the store unchanged. -/
theorem unit_owner_landlord_invariant (s : Store) (u : Unit) :
    ((unitSave s u).2 = none →
      ∃ ow, findContact (unitSave s u).1 u.owner = some ow ∧
        ow.contact_type = ContactType.LANDLORD) ∧
    (∀ ow, findContact s u.owner = some ow →
      ow.contact_type ≠ ContactType.LANDLORD →
      unitSave s u = (s, some WriteError.roleViolationOwner)) := by
  constructor
  · intro h
    unfold unitSave at h ⊢
    cases hm : findContact s u.owner with
    | none => simp [hm] at h
    | some ow =>
      simp only [hm] at h ⊢
      by_cases hc : ow.contact_type = ContactType.LANDLORD
      · refine ⟨ow, ?_, hc⟩
        simp only [hc, ne_eq, not_true_eq_false, if_false]
        rw [findContact_upsertUnit]
        exact hm
      · simp [hc] at h
  · intro ow hm hc
    unfold unitSave
    rw [hm]
    simp [hc]

theorem unit_owner_landlord_invariant_witness :
    (∃ ow, findContact
        (unitSave baseStore { unit101 with id := 2, unit_number := "U-102" }).1
        ({ unit101 with id := 2, unit_number := "U-102" } : Unit).owner =
          some ow ∧
      ow.contact_type = ContactType.LANDLORD) ∧
    unitSave baseStore { unit101 with id := 3, unit_number := "U-103", owner := 2 } =
      (baseStore, some WriteError.roleViolationOwner) :=
  ⟨(unit_owner_landlord_invariant baseStore
      { unit101 with id := 2, unit_number := "U-102" }).1 (by decide),
   (unit_owner_landlord_invariant baseStore
      { unit101 with id := 3, unit_number := "U-103", owner := 2 }).2 tenantB
      (by decide) (by decide)⟩

/-- C7: the lease end date is the start date plus `duration` calendar
months with the day clamped to the target month's last valid day, and the
three sample evaluations of the spec hold. -/
theorem end_date_calc :
    (∀ (d : Date) (n : Nat), 1 ≤ n →
      getEndDate (some d) n = some (specEndDate d n)) ∧
    getEndDate (some { year := 2025, month := 1, day := 31 }) 1 =
      some { year := 2025, month := 2, day := 28 } ∧
    getEndDate (some { year := 2024, month := 1, day := 31 }) 1 =
      some { year := 2024, month := 2, day := 29 } ∧
    getEndDate (some { year := 2025, month := 1, day := 1 }) 12 =
      some { year := 2026, month := 1, day := 1 } := by
  refine ⟨?_, by decide, by decide, by decide⟩
  intro d n _
  obtain ⟨y, m, dd⟩ := d
  simp only [getEndDate, addMonths, specEndDate]
  have h1 : y + (m - 1 + n) / 12 = (y * 12 + (m - 1) + n) / 12 := by omega
  have h2 : (m - 1 + n) % 12 = (y * 12 + (m - 1) + n) % 12 := by omega
  rw [h1, h2]

theorem end_date_calc_witness :
    getEndDate (some { year := 2025, month := 1, day := 31 }) 1 =
      some (specEndDate { year := 2025, month := 1, day := 31 } 1) :=
  end_date_calc.1 { year := 2025, month := 1, day := 31 } 1 (by decide)

/-- C8, counterexample to the claim as stated: with zero units the
occupancy rate string is not `"0%"` (the `0` fallback still goes through
the two-decimal format). -/
theorem occupancy_rate_empty_not_0pct :
    (unitsSummary emptyStore).occupancy_rate ≠ "0%" := by decide

/-- C8, amended: the dashboard unit summary counts the Units per status and
formats `occupied / total` as a percentage with two decimals; with zero
units it is `"0.00%"` (no division), and for 2 occupied of 3 units it is
`"66.67%"`. -/
theorem dashboard_units_summary_correct :
    (∀ s, (unitsSummary s).total = s.units.length ∧
      (unitsSummary s).vacant =
        s.units.countP (fun u => u.status = UnitStatus.VACANT) ∧
      (unitsSummary s).occupied =
        s.units.countP (fun u => u.status = UnitStatus.OCCUPIED) ∧
      (unitsSummary s).maintenance =
        s.units.countP (fun u => u.status = UnitStatus.MAINTENANCE) ∧
      (unitsSummary s).occupancy_rate =
        fmt2 (if s.units.length = 0 then 0
          else roundHalfEven
            (s.units.countP (fun u => u.status = UnitStatus.OCCUPIED) * 10000)
            s.units.length) ++ "%") ∧
    (unitsSummary emptyStore).occupancy_rate = "0.00%" ∧
    (unitsSummary threeUnitStore).occupancy_rate = "66.67%" := by
  refine ⟨fun s => ⟨rfl, ?_, ?_, ?_, ?_⟩, by decide, by decide⟩
  · exact statusGet_statusGroups s.units UnitStatus.VACANT
  · exact statusGet_statusGroups s.units UnitStatus.OCCUPIED
  · exact statusGet_statusGroups s.units UnitStatus.MAINTENANCE
  · show fmt2 (if s.units.length = 0 then 0
        else roundHalfEven
          (statusGet (statusGroups s.units) UnitStatus.OCCUPIED * 10000)
          s.units.length) ++ "%" = _
    rw [statusGet_statusGroups]

/-- C9: the dashboard's landlord summary filters Contacts with the keyword
`type`, which is not a Contact field (the field was renamed to
`contact_type`); the query raises a field error, so every
`getDashboardSummary` call fails instead of returning the landlord rows. -/
theorem dashboard_landlords_field_error :
    ∀ s : Store, dashboardSummary s = Except.error (QueryError.fieldError "type") :=
  fun _ => rfl

/-- C10: the occupied-unit pre-check applies only on create: an update of
an existing Lease never fails with `AlreadyOccupied`, and with valid roles
and landlord = unit owner it succeeds even when the referenced Unit is
already OCCUPIED. -/
theorem lease_update_no_occupancy_check :
    (∀ s ex l, (apiUpdateLease s ex l).2 ≠ some WriteError.alreadyOccupied) ∧
    (∀ s ex l t ld u,
      findContact s l.tenant = some t → t.contact_type = ContactType.TENANT →
      findContact s l.landlord = some ld →
      ld.contact_type = ContactType.LANDLORD →
      findUnit s l.unit = some u → l.landlord = u.owner →
      (apiUpdateLease s ex l).2 = none) := by
  constructor
  · intro s ex l
    unfold apiUpdateLease
    cases hv : leaseValidate (some ex) s l with
    | some e =>
      have hne := leaseValidate_update_ne_alreadyOccupied ex s l
      rw [hv] at hne
      exact hne
    | none => exact leaseSave_ne_alreadyOccupied s l
  · intro s ex l t ld u ht htt hl hll hu how
    unfold apiUpdateLease
    have hv : leaseValidate (some ex) s l = none := by
      unfold leaseValidate
      rw [ht, hl, hu]
      simp [htt, hll, how]
    rw [hv]
    rw [leaseSave_all_pass s l t ld u ht htt hl hll hu how]
    by_cases hst : u.status = UnitStatus.OCCUPIED <;> simp [hst]

theorem lease_update_no_occupancy_check_witness :
    (apiUpdateLease occStore 1 lease1).2 ≠ some WriteError.alreadyOccupied ∧
      (apiUpdateLease occStore 1 lease1).2 = none :=
  ⟨lease_update_no_occupancy_check.1 occStore 1 lease1,
   lease_update_no_occupancy_check.2 occStore 1 lease1 tenantB landlordA
     { unit101 with status := UnitStatus.OCCUPIED }
     (by decide) rfl (by decide) rfl (by decide) (by decide)⟩

end PMS
